import Mathlib

/-!
Shallow embedding of the BlueZ Volume Control Profile server-side
control-point engine (src/shared/vcp.c): the VCS and VOCS volume state
stores, the eight opcode handlers, the two control-point write
dispatchers, and the session-detach entry point.

Machine integers are modelled as `Nat` (unsigned fields) and `Int`
(the int16 volume offset), with `% 256` / 16-bit wrapping applied
exactly where a C store into a `uint8_t` / `int16_t` truncates.
Operand buffers are byte lists; `iov_pull_mem` becomes pattern
matching that fails (returns the C functions' inert 0 result) when the
buffer is shorter than the pulled struct.  Debug strings and GATT
attribute plumbing carry no protocol state and are dropped; whether
`gatt_db_attribute_notify` was called is recorded in a `notified`
flag.
-/

/-- Application error code from vcp.c. -/
def BT_ATT_ERROR_INVALID_CHANGE_COUNTER : Nat := 0x80

/-- Application error code from vcp.c. -/
def BT_ATT_ERROR_OPCODE_NOT_SUPPORTED : Nat := 0x81

/-- Application error code from vcp.c. -/
def BT_ATT_ERROR_VALUE_OUT_OF_RANGE : Nat := 0x82

/-- Modelled from the spec: transport-standard ATT error code
`InvalidOffset` (the defining header src/shared/att-types.h is not under
src/; the spec lists it among the transport-standard codes). -/
def BT_ATT_ERROR_INVALID_OFFSET : Nat := 0x07

/-- Modelled from the spec: transport-standard ATT error code
`InvalidAttributeValueLen` (header not under src/). -/
def BT_ATT_ERROR_INVALID_ATTRIBUTE_VALUE_LEN : Nat := 0x0D

/-- Modelled from the spec: transport-standard ATT error code
`RequestNotSupported` (header not under src/). -/
def BT_ATT_ERROR_REQUEST_NOT_SUPPORTED : Nat := 0x06

/-- VCP_STEP_SIZE from vcp.c. -/
def VCP_STEP_SIZE : Int := 1

/-- VOCS_VOL_OFFSET_UPPER_LIMIT from vcp.c. -/
def VOCS_VOL_OFFSET_UPPER_LIMIT : Int := 255

/-- VOCS_VOL_OFFSET_LOWER_LIMIT from vcp.c. -/
def VOCS_VOL_OFFSET_LOWER_LIMIT : Int := -255

/-- struct vol_state: `vol_set`, `mute`, `counter`, all uint8_t. -/
structure vol_state where
  vol_set : Nat
  mute : Nat
  counter : Nat
deriving DecidableEq

/-- struct vol_offset_state: `vol_offset` int16_t, `counter` uint8_t. -/
structure vol_offset_state where
  vol_offset : Int
  counter : Nat
deriving DecidableEq

/-- vcs_new zero-allocates the volume state (new0). -/
def init_vol_state : vol_state := ⟨0, 0, 0⟩

/-- vocs_new zero-allocates the volume offset state (new0). -/
def init_vol_offset_state : vol_offset_state := ⟨0, 0⟩

/-- Result of a VCS opcode handler: the returned uint8_t code, the
volume state after the call, and whether `gatt_db_attribute_notify`
was invoked. -/
structure vcs_result where
  ret : Nat
  st : vol_state
  notified : Bool
deriving DecidableEq

/-- Result of a VOCS opcode handler. -/
structure vocs_result where
  ret : Nat
  st : vol_offset_state
  notified : Bool
deriving DecidableEq

/-- Reassemble a little-endian 16-bit value from two bytes
(le16_to_cpu on the packed operand). -/
def le16 (lo hi : Nat) : Nat := lo + 256 * hi

/-- Interpretation of a 16-bit container as a signed int16_t, as the
store into `vol_offset` performs. -/
def toInt16 (v : Nat) : Int :=
  if v % 65536 < 32768 then ((v % 65536 : Nat) : Int)
  else ((v % 65536 : Nat) : Int) - 65536

/-- `-~counter` stored into a uint8_t: increment modulo 256. -/
def counter_incr (c : Nat) : Nat := (c + 1) % 256

/-- vcs_rel_vol_down: pull the change counter (failed pull returns 0,
as does the C function), reject a mismatch with 0x80, otherwise clamp
the volume one step down with MAX(vol_set - VCP_STEP_SIZE, 0),
increment the counter and notify. -/
def vcs_rel_vol_down (st : vol_state) (iov : List Nat) : vcs_result :=
  match iov with
  | [] => ⟨0, st, false⟩
  | change_counter :: _ =>
    if change_counter ≠ st.counter then
      ⟨BT_ATT_ERROR_INVALID_CHANGE_COUNTER, st, false⟩
    else
      ⟨0, ⟨(max ((st.vol_set : Int) - VCP_STEP_SIZE) 0).toNat % 256,
           st.mute, counter_incr st.counter⟩, true⟩

/-- vcs_rel_vol_up: as down, but MIN(vol_set + VCP_STEP_SIZE, 255). -/
def vcs_rel_vol_up (st : vol_state) (iov : List Nat) : vcs_result :=
  match iov with
  | [] => ⟨0, st, false⟩
  | change_counter :: _ =>
    if change_counter ≠ st.counter then
      ⟨BT_ATT_ERROR_INVALID_CHANGE_COUNTER, st, false⟩
    else
      ⟨0, ⟨(min ((st.vol_set : Int) + VCP_STEP_SIZE) 255).toNat % 256,
           st.mute, counter_incr st.counter⟩, true⟩

/-- vcs_unmute_rel_vol_down: clear mute, then the volume-down effect. -/
def vcs_unmute_rel_vol_down (st : vol_state) (iov : List Nat) : vcs_result :=
  match iov with
  | [] => ⟨0, st, false⟩
  | change_counter :: _ =>
    if change_counter ≠ st.counter then
      ⟨BT_ATT_ERROR_INVALID_CHANGE_COUNTER, st, false⟩
    else
      ⟨0, ⟨(max ((st.vol_set : Int) - VCP_STEP_SIZE) 0).toNat % 256,
           0x00, counter_incr st.counter⟩, true⟩

/-- vcs_unmute_rel_vol_up: clear mute, then the volume-up effect. -/
def vcs_unmute_rel_vol_up (st : vol_state) (iov : List Nat) : vcs_result :=
  match iov with
  | [] => ⟨0, st, false⟩
  | change_counter :: _ =>
    if change_counter ≠ st.counter then
      ⟨BT_ATT_ERROR_INVALID_CHANGE_COUNTER, st, false⟩
    else
      ⟨0, ⟨(min ((st.vol_set : Int) + VCP_STEP_SIZE) 255).toNat % 256,
           0x00, counter_incr st.counter⟩, true⟩

/-- vcs_set_absolute_vol: pull struct bt_vcs_ab_vol (2 bytes: counter,
vol_set), reject a counter mismatch, otherwise store the requested
volume byte, increment the counter and notify. -/
def vcs_set_absolute_vol (st : vol_state) (iov : List Nat) : vcs_result :=
  match iov with
  | change_counter :: vol_set :: _ =>
    if change_counter ≠ st.counter then
      ⟨BT_ATT_ERROR_INVALID_CHANGE_COUNTER, st, false⟩
    else
      ⟨0, ⟨vol_set % 256, st.mute, counter_incr st.counter⟩, true⟩
  | _ => ⟨0, st, false⟩

/-- vcs_unmute: clear mute, increment the counter, notify. -/
def vcs_unmute (st : vol_state) (iov : List Nat) : vcs_result :=
  match iov with
  | [] => ⟨0, st, false⟩
  | change_counter :: _ =>
    if change_counter ≠ st.counter then
      ⟨BT_ATT_ERROR_INVALID_CHANGE_COUNTER, st, false⟩
    else
      ⟨0, ⟨st.vol_set, 0x00, counter_incr st.counter⟩, true⟩

/-- vcs_mute: set mute, increment the counter; the source contains no
notify call in this handler. -/
def vcs_mute (st : vol_state) (iov : List Nat) : vcs_result :=
  match iov with
  | [] => ⟨0, st, false⟩
  | change_counter :: _ =>
    if change_counter ≠ st.counter then
      ⟨BT_ATT_ERROR_INVALID_CHANGE_COUNTER, st, false⟩
    else
      ⟨0, ⟨st.vol_set, 0x01, counter_incr st.counter⟩, false⟩

/-- vocs_set_vol_offset: pull struct bt_vocs_set_vol_off (3 bytes:
counter, int16 LE offset; failed pull returns 0), reject a counter
mismatch, then assign the requested offset to the state BEFORE the
range check; out of [-255,255] returns 0x82 without rollback or
counter increment; otherwise increment the counter and notify. -/
def vocs_set_vol_offset (st : vol_offset_state) (iov : List Nat) : vocs_result :=
  match iov with
  | change_counter :: lo :: hi :: _ =>
    if change_counter ≠ st.counter then
      ⟨BT_ATT_ERROR_INVALID_CHANGE_COUNTER, st, false⟩
    else
      let st1 : vol_offset_state := ⟨toInt16 (le16 lo hi), st.counter⟩
      if st1.vol_offset > VOCS_VOL_OFFSET_UPPER_LIMIT ∨
          st1.vol_offset < VOCS_VOL_OFFSET_LOWER_LIMIT then
        ⟨BT_ATT_ERROR_VALUE_OUT_OF_RANGE, st1, false⟩
      else
        ⟨0, ⟨st1.vol_offset, counter_incr st1.counter⟩, true⟩
  | _ => ⟨0, st, false⟩

/-- VCS opcode BT_VCS_REL_VOL_DOWN. -/
def BT_VCS_REL_VOL_DOWN : Nat := 0x00

/-- VCS opcode BT_VCS_REL_VOL_UP. -/
def BT_VCS_REL_VOL_UP : Nat := 0x01

/-- VCS opcode BT_VCS_UNMUTE_REL_VOL_DOWN. -/
def BT_VCS_UNMUTE_REL_VOL_DOWN : Nat := 0x02

/-- VCS opcode BT_VCS_UNMUTE_REL_VOL_UP. -/
def BT_VCS_UNMUTE_REL_VOL_UP : Nat := 0x03

/-- VCS opcode BT_VCS_SET_ABSOLUTE_VOL. -/
def BT_VCS_SET_ABSOLUTE_VOL : Nat := 0x04

/-- VCS opcode BT_VCS_UNMUTE. -/
def BT_VCS_UNMUTE : Nat := 0x05

/-- VCS opcode BT_VCS_MUTE. -/
def BT_VCS_MUTE : Nat := 0x06

/-- VOCS opcode BT_VOCS_SET_VOL_OFFSET. -/
def BT_VOCS_SET_VOL_OFFSET : Nat := 0x01

/-- One entry of struct vcs_op_handler (the debug string is dropped). -/
structure vcs_op_handler where
  op : Nat
  size : Nat
  func : vol_state → List Nat → vcs_result

/-- The vcp_handlers table: opcode, required operand size in bytes
after the opcode (sizeof(uint8_t) = 1, sizeof(struct bt_vcs_ab_vol)
= 2), handler. -/
def vcp_handlers : List vcs_op_handler :=
  [⟨BT_VCS_REL_VOL_DOWN, 1, vcs_rel_vol_down⟩,
   ⟨BT_VCS_REL_VOL_UP, 1, vcs_rel_vol_up⟩,
   ⟨BT_VCS_UNMUTE_REL_VOL_DOWN, 1, vcs_unmute_rel_vol_down⟩,
   ⟨BT_VCS_UNMUTE_REL_VOL_UP, 1, vcs_unmute_rel_vol_up⟩,
   ⟨BT_VCS_SET_ABSOLUTE_VOL, 2, vcs_set_absolute_vol⟩,
   ⟨BT_VCS_UNMUTE, 1, vcs_unmute⟩,
   ⟨BT_VCS_MUTE, 1, vcs_mute⟩]

/-- One entry of struct vocs_op_handler. -/
structure vocs_op_handler where
  op : Nat
  size : Nat
  func : vol_offset_state → List Nat → vocs_result

/-- The vocp_handlers table.  NOTE: the source declares the operand
size as sizeof(uint8_t) = 1 even though vocs_set_vol_offset pulls
sizeof(struct bt_vocs_set_vol_off) = 3 bytes. -/
def vocp_handlers : List vocs_op_handler :=
  [⟨BT_VOCS_SET_VOL_OFFSET, 1, vocs_set_vol_offset⟩]

/-- The dispatch loop of vcs_cp_write: first table entry whose opcode
matches. -/
def find_vcs_handler : List vcs_op_handler → Nat → Option vcs_op_handler
  | [], _ => none
  | h :: t, op => if h.op = op then some h else find_vcs_handler t op

/-- The dispatch loop of vocs_cp_write. -/
def find_vocs_handler : List vocs_op_handler → Nat → Option vocs_op_handler
  | [], _ => none
  | h :: t, op => if h.op = op then some h else find_vocs_handler t op

/-- vcs_cp_write: non-zero attribute offset rejected first, then an
empty value, then opcode lookup; a matched opcode whose remaining
operand is shorter than the table size gives OpcodeNotSupported, an
unmatched opcode gives OpcodeNotSupported, otherwise the handler
runs on the remaining bytes. -/
def vcs_cp_write (st : vol_state) (offset : Nat) (value : List Nat) : vcs_result :=
  if offset ≠ 0 then ⟨BT_ATT_ERROR_INVALID_OFFSET, st, false⟩
  else
    match value with
    | [] => ⟨BT_ATT_ERROR_INVALID_ATTRIBUTE_VALUE_LEN, st, false⟩
    | op :: rest =>
      match find_vcs_handler vcp_handlers op with
      | some h =>
        if rest.length < h.size then
          ⟨BT_ATT_ERROR_OPCODE_NOT_SUPPORTED, st, false⟩
        else h.func st rest
      | none => ⟨BT_ATT_ERROR_OPCODE_NOT_SUPPORTED, st, false⟩

/-- vocs_cp_write: same validation sequence over the VOCS table. -/
def vocs_cp_write (st : vol_offset_state) (offset : Nat) (value : List Nat) : vocs_result :=
  if offset ≠ 0 then ⟨BT_ATT_ERROR_INVALID_OFFSET, st, false⟩
  else
    match value with
    | [] => ⟨BT_ATT_ERROR_INVALID_ATTRIBUTE_VALUE_LEN, st, false⟩
    | op :: rest =>
      match find_vocs_handler vocp_handlers op with
      | some h =>
        if rest.length < h.size then
          ⟨BT_ATT_ERROR_OPCODE_NOT_SUPPORTED, st, false⟩
        else h.func st rest
      | none => ⟨BT_ATT_ERROR_OPCODE_NOT_SUPPORTED, st, false⟩

/-- A successful (counter-matching) VCS control operation, for
reasoning about sequences of accepted writes. -/
inductive vol_op where
  | down
  | up
  | unmute_down
  | unmute_up
  | set_abs (v : Nat)

/-- Apply one accepted operation: the handler is invoked with an
operand whose change counter equals the stored counter. -/
def apply_vol_op (st : vol_state) : vol_op → vol_state
  | .down => (vcs_rel_vol_down st [st.counter]).st
  | .up => (vcs_rel_vol_up st [st.counter]).st
  | .unmute_down => (vcs_unmute_rel_vol_down st [st.counter]).st
  | .unmute_up => (vcs_unmute_rel_vol_up st [st.counter]).st
  | .set_abs v => (vcs_set_absolute_vol st [st.counter, v]).st

/-- Apply a sequence of accepted operations in order. -/
def apply_vol_ops : vol_state → List vol_op → vol_state
  | st, [] => st
  | st, o :: os => apply_vol_ops (apply_vol_op st o) os

/-- A session object, reduced to its identity in the global sessions
queue and its gatt client reference. -/
structure bt_vcp where
  id : Nat
  client : Option Nat
deriving DecidableEq

/-- bt_vcp_detach: queue_remove on the global sessions queue returns
false when the session is absent, and the function returns at once;
otherwise the client reference is dropped and every registered
detached callback fires (vcp_detached via queue_foreach).  Returns
the new sessions queue, the session, and the list of callbacks
invoked. -/
def bt_vcp_detach (sessions : List Nat) (vcp : bt_vcp) (vcp_cbs : List Nat) :
    List Nat × bt_vcp × List Nat :=
  if vcp.id ∈ sessions then
    (sessions.erase vcp.id, ⟨vcp.id, none⟩, vcp_cbs)
  else
    (sessions, vcp, [])

/-- C1: on every control-point handler (seven VCS opcodes and VOCS Set
Volume Offset), an operand whose leading change-counter byte differs
from the stored counter yields InvalidChangeCounter (0x80), leaves the
state (setting, muted, offset and the counter) unchanged, and emits no
notification. -/
theorem c1_counter_mismatch_rejected (st : vol_state) (ost : vol_offset_state)
    (cc v lo hi : Nat) (rest : List Nat)
    (hv : cc ≠ st.counter) (ho : cc ≠ ost.counter) :
    vcs_rel_vol_down st (cc :: rest) =
      ⟨BT_ATT_ERROR_INVALID_CHANGE_COUNTER, st, false⟩ ∧
    vcs_rel_vol_up st (cc :: rest) =
      ⟨BT_ATT_ERROR_INVALID_CHANGE_COUNTER, st, false⟩ ∧
    vcs_unmute_rel_vol_down st (cc :: rest) =
      ⟨BT_ATT_ERROR_INVALID_CHANGE_COUNTER, st, false⟩ ∧
    vcs_unmute_rel_vol_up st (cc :: rest) =
      ⟨BT_ATT_ERROR_INVALID_CHANGE_COUNTER, st, false⟩ ∧
    vcs_set_absolute_vol st (cc :: v :: rest) =
      ⟨BT_ATT_ERROR_INVALID_CHANGE_COUNTER, st, false⟩ ∧
    vcs_unmute st (cc :: rest) =
      ⟨BT_ATT_ERROR_INVALID_CHANGE_COUNTER, st, false⟩ ∧
    vcs_mute st (cc :: rest) =
      ⟨BT_ATT_ERROR_INVALID_CHANGE_COUNTER, st, false⟩ ∧
    vocs_set_vol_offset ost (cc :: lo :: hi :: rest) =
      ⟨BT_ATT_ERROR_INVALID_CHANGE_COUNTER, ost, false⟩ := by
  refine ⟨?_, ?_, ?_, ?_, ?_, ?_, ?_, ?_⟩ <;>
    simp [vcs_rel_vol_down, vcs_rel_vol_up, vcs_unmute_rel_vol_down,
          vcs_unmute_rel_vol_up, vcs_set_absolute_vol, vcs_unmute,
          vcs_mute, vocs_set_vol_offset, hv, ho]

/-- Witness for C1 at spec Scenario B: state (10,false,5), counter
byte 4. -/
theorem c1_witness :
    vcs_rel_vol_down ⟨10, 0, 5⟩ [4] =
      ⟨BT_ATT_ERROR_INVALID_CHANGE_COUNTER, ⟨10, 0, 5⟩, false⟩ ∧
    vocs_set_vol_offset ⟨0, 3⟩ [4, 1, 0] =
      ⟨BT_ATT_ERROR_INVALID_CHANGE_COUNTER, ⟨0, 3⟩, false⟩ := by
  have h := c1_counter_mismatch_rejected ⟨10, 0, 5⟩ ⟨0, 3⟩ 4 9 1 0 []
      (by decide) (by decide)
  exact ⟨h.1, h.2.2.2.2.2.2.2⟩

/-- C2: on every valid opcode (the seven VCS opcodes, and VOCS Set
Volume Offset with an in-range offset), a write whose change-counter
byte equals the stored counter returns 0 and leaves the stored counter
equal to old counter + 1 modulo 256 (so 255 wraps to 0). -/
theorem c2_counter_incremented (st : vol_state) (ost : vol_offset_state)
    (v lo hi : Nat) (rest : List Nat)
    (hoff : VOCS_VOL_OFFSET_LOWER_LIMIT ≤ toInt16 (le16 lo hi) ∧
            toInt16 (le16 lo hi) ≤ VOCS_VOL_OFFSET_UPPER_LIMIT) :
    ((vcs_rel_vol_down st (st.counter :: rest)).ret = 0 ∧
     (vcs_rel_vol_down st (st.counter :: rest)).st.counter =
       (st.counter + 1) % 256) ∧
    ((vcs_rel_vol_up st (st.counter :: rest)).ret = 0 ∧
     (vcs_rel_vol_up st (st.counter :: rest)).st.counter =
       (st.counter + 1) % 256) ∧
    ((vcs_unmute_rel_vol_down st (st.counter :: rest)).ret = 0 ∧
     (vcs_unmute_rel_vol_down st (st.counter :: rest)).st.counter =
       (st.counter + 1) % 256) ∧
    ((vcs_unmute_rel_vol_up st (st.counter :: rest)).ret = 0 ∧
     (vcs_unmute_rel_vol_up st (st.counter :: rest)).st.counter =
       (st.counter + 1) % 256) ∧
    ((vcs_set_absolute_vol st (st.counter :: v :: rest)).ret = 0 ∧
     (vcs_set_absolute_vol st (st.counter :: v :: rest)).st.counter =
       (st.counter + 1) % 256) ∧
    ((vcs_unmute st (st.counter :: rest)).ret = 0 ∧
     (vcs_unmute st (st.counter :: rest)).st.counter =
       (st.counter + 1) % 256) ∧
    ((vcs_mute st (st.counter :: rest)).ret = 0 ∧
     (vcs_mute st (st.counter :: rest)).st.counter =
       (st.counter + 1) % 256) ∧
    ((vocs_set_vol_offset ost (ost.counter :: lo :: hi :: rest)).ret = 0 ∧
     (vocs_set_vol_offset ost (ost.counter :: lo :: hi :: rest)).st.counter =
       (ost.counter + 1) % 256) := by
  obtain ⟨h1, h2⟩ := hoff
  have hcond : ¬(toInt16 (le16 lo hi) > VOCS_VOL_OFFSET_UPPER_LIMIT ∨
      toInt16 (le16 lo hi) < VOCS_VOL_OFFSET_LOWER_LIMIT) := by
    simp only [VOCS_VOL_OFFSET_UPPER_LIMIT, VOCS_VOL_OFFSET_LOWER_LIMIT]
        at h1 h2 ⊢
    omega
  refine ⟨?_, ?_, ?_, ?_, ?_, ?_, ?_, ?_⟩ <;>
    simp [vcs_rel_vol_down, vcs_rel_vol_up, vcs_unmute_rel_vol_down,
          vcs_unmute_rel_vol_up, vcs_set_absolute_vol, vcs_unmute,
          vcs_mute, vocs_set_vol_offset, counter_incr, hcond]

/-- Witness for C2 with the stored counter at 255: the counter wraps
to 0 on both services. -/
theorem c2_witness :
    (vcs_rel_vol_down ⟨10, 0, 255⟩ [255]).st.counter = 0 ∧
    (vocs_set_vol_offset ⟨0, 255⟩ [255, 5, 0]).st.counter = 0 := by
  have h := c2_counter_incremented ⟨10, 0, 255⟩ ⟨0, 255⟩ 9 5 0 [] (by decide)
  exact ⟨by simpa using h.1.2, by simpa using h.2.2.2.2.2.2.2.2⟩

/-- C9: with a matching counter, every VCS handler except Mute invokes
the VolumeState notification after mutating and incrementing the
counter; Mute returns success, sets muted and increments the counter,
but emits no notification. -/
theorem c9_mute_does_not_notify (st : vol_state) (v : Nat) (rest : List Nat) :
    (vcs_rel_vol_down st (st.counter :: rest)).notified = true ∧
    (vcs_rel_vol_up st (st.counter :: rest)).notified = true ∧
    (vcs_unmute_rel_vol_down st (st.counter :: rest)).notified = true ∧
    (vcs_unmute_rel_vol_up st (st.counter :: rest)).notified = true ∧
    (vcs_set_absolute_vol st (st.counter :: v :: rest)).notified = true ∧
    (vcs_unmute st (st.counter :: rest)).notified = true ∧
    vcs_mute st (st.counter :: rest) =
      ⟨0, ⟨st.vol_set, 0x01, (st.counter + 1) % 256⟩, false⟩ := by
  refine ⟨?_, ?_, ?_, ?_, ?_, ?_, ?_⟩ <;>
    simp [vcs_rel_vol_down, vcs_rel_vol_up, vcs_unmute_rel_vol_down,
          vcs_unmute_rel_vol_up, vcs_set_absolute_vol, vcs_unmute,
          vcs_mute, counter_incr]

/-- C4: in vocs_set_vol_offset, when the counter matches and the
requested little-endian int16 offset is outside [-255,255], the
requested value is assigned to the stored offset before the range
check and kept on failure, the return is ValueOutOfRange, the counter
is not incremented, and no notification is emitted. -/
theorem c4_assign_before_range_check (ost : vol_offset_state)
    (lo hi : Nat) (rest : List Nat)
    (hout : toInt16 (le16 lo hi) > VOCS_VOL_OFFSET_UPPER_LIMIT ∨
            toInt16 (le16 lo hi) < VOCS_VOL_OFFSET_LOWER_LIMIT) :
    vocs_set_vol_offset ost (ost.counter :: lo :: hi :: rest) =
      ⟨BT_ATT_ERROR_VALUE_OUT_OF_RANGE,
       ⟨toInt16 (le16 lo hi), ost.counter⟩, false⟩ := by
  simp [vocs_set_vol_offset, hout]

/-- Witness for C4 at spec Scenario C: offset state (0,3), requested
offset 0x0101 = 257. -/
theorem c4_witness :
    vocs_set_vol_offset ⟨0, 3⟩ [3, 1, 1] =
      ⟨BT_ATT_ERROR_VALUE_OUT_OF_RANGE, ⟨257, 3⟩, false⟩ := by
  have h := c4_assign_before_range_check ⟨0, 3⟩ 1 1 [] (by decide)
  simpa using h

/-- C5: a VOCS Set Volume Offset write with a matching counter returns
ValueOutOfRange (0x82) for every requested offset outside [-255,255],
and for every requested offset inside [-255,255] returns 0, stores the
offset, increments the counter and notifies. -/
theorem c5_offset_range_policy (ost : vol_offset_state)
    (lo hi : Nat) (rest : List Nat) :
    (toInt16 (le16 lo hi) > VOCS_VOL_OFFSET_UPPER_LIMIT ∨
       toInt16 (le16 lo hi) < VOCS_VOL_OFFSET_LOWER_LIMIT →
     (vocs_set_vol_offset ost (ost.counter :: lo :: hi :: rest)).ret =
       BT_ATT_ERROR_VALUE_OUT_OF_RANGE) ∧
    (VOCS_VOL_OFFSET_LOWER_LIMIT ≤ toInt16 (le16 lo hi) →
     toInt16 (le16 lo hi) ≤ VOCS_VOL_OFFSET_UPPER_LIMIT →
     vocs_set_vol_offset ost (ost.counter :: lo :: hi :: rest) =
       ⟨0, ⟨toInt16 (le16 lo hi), (ost.counter + 1) % 256⟩, true⟩) := by
  constructor
  · intro hout
    simp [vocs_set_vol_offset, hout]
  · intro h1 h2
    have hcond : ¬(toInt16 (le16 lo hi) > VOCS_VOL_OFFSET_UPPER_LIMIT ∨
        toInt16 (le16 lo hi) < VOCS_VOL_OFFSET_LOWER_LIMIT) := by
      simp only [VOCS_VOL_OFFSET_UPPER_LIMIT, VOCS_VOL_OFFSET_LOWER_LIMIT]
          at h1 h2 ⊢
      omega
    simp [vocs_set_vol_offset, counter_incr, hcond]

/-- Witness for C5: Scenario C rejected with 0x82, and the in-range
request 5 accepted with counter 3 → 4. -/
theorem c5_witness :
    (vocs_set_vol_offset ⟨0, 3⟩ [3, 1, 1]).ret =
      BT_ATT_ERROR_VALUE_OUT_OF_RANGE ∧
    vocs_set_vol_offset ⟨0, 3⟩ [3, 5, 0] = ⟨0, ⟨5, 4⟩, true⟩ := by
  refine ⟨(c5_offset_range_policy ⟨0, 3⟩ 1 1 []).1 (by decide), ?_⟩
  have h := (c5_offset_range_policy ⟨0, 3⟩ 5 0 []).2 (by decide) (by decide)
  simpa using h

/-- C3: the claim expects OpcodeNotSupported for every known opcode
with a short operand.  It holds for the VCS table (first two
conjuncts: Set Absolute Volume with 1 of 2 operand bytes, Relative
Volume Down with 0 of 1), but the VOCS table entry declares operand
size sizeof(uint8_t) = 1 while the handler pulls 3 bytes, so a VOCS
write with opcode 0x01 and 2 remaining bytes passes the length gate,
the handler's pull fails, and the write returns 0 (success) with no
mutation (third conjunct) instead of 0x81 (fourth conjunct). -/
theorem c3_vocs_short_operand_divergence :
    vcs_cp_write ⟨10, 0, 5⟩ 0 [BT_VCS_SET_ABSOLUTE_VOL, 5] =
      ⟨BT_ATT_ERROR_OPCODE_NOT_SUPPORTED, ⟨10, 0, 5⟩, false⟩ ∧
    vcs_cp_write ⟨10, 0, 5⟩ 0 [BT_VCS_REL_VOL_DOWN] =
      ⟨BT_ATT_ERROR_OPCODE_NOT_SUPPORTED, ⟨10, 0, 5⟩, false⟩ ∧
    vocs_cp_write ⟨0, 0⟩ 0 [BT_VOCS_SET_VOL_OFFSET, 0, 1] =
      ⟨0, ⟨0, 0⟩, false⟩ ∧
    (vocs_cp_write ⟨0, 0⟩ 0 [BT_VOCS_SET_VOL_OFFSET, 0, 1]).ret ≠
      BT_ATT_ERROR_OPCODE_NOT_SUPPORTED := by
  refine ⟨?_, ?_, ?_, ?_⟩ <;> decide

/-- C7: on both control points, a non-zero attribute-write offset
returns InvalidOffset regardless of the value bytes, and with offset
zero an empty value returns InvalidAttributeValueLen; in all four
cases the state is unchanged and nothing is notified. -/
theorem c7_offset_and_len_checks (st : vol_state) (ost : vol_offset_state)
    (off : Nat) (value : List Nat) (hoff : off ≠ 0) :
    vcs_cp_write st off value = ⟨BT_ATT_ERROR_INVALID_OFFSET, st, false⟩ ∧
    vocs_cp_write ost off value = ⟨BT_ATT_ERROR_INVALID_OFFSET, ost, false⟩ ∧
    vcs_cp_write st 0 [] =
      ⟨BT_ATT_ERROR_INVALID_ATTRIBUTE_VALUE_LEN, st, false⟩ ∧
    vocs_cp_write ost 0 [] =
      ⟨BT_ATT_ERROR_INVALID_ATTRIBUTE_VALUE_LEN, ost, false⟩ := by
  refine ⟨?_, ?_, ?_, ?_⟩ <;> simp [vcs_cp_write, vocs_cp_write, hoff]

/-- Witness for C7: offset 1 with a well-formed value, and empty
writes at offset 0. -/
theorem c7_witness :
    vcs_cp_write ⟨10, 0, 5⟩ 1 [0, 5] =
      ⟨BT_ATT_ERROR_INVALID_OFFSET, ⟨10, 0, 5⟩, false⟩ ∧
    vocs_cp_write ⟨0, 3⟩ 0 [] =
      ⟨BT_ATT_ERROR_INVALID_ATTRIBUTE_VALUE_LEN, ⟨0, 3⟩, false⟩ := by
  have h := c7_offset_and_len_checks ⟨10, 0, 5⟩ ⟨0, 3⟩ 1 [0, 5] (by decide)
  exact ⟨h.1, h.2.2.2⟩

/-- No VCS table entry matches an opcode above BT_VCS_MUTE = 0x06. -/
lemma find_vcs_handler_none (op : Nat) (h : 6 < op) :
    find_vcs_handler vcp_handlers op = none := by
  have h0 : BT_VCS_REL_VOL_DOWN ≠ op := by
    simp only [BT_VCS_REL_VOL_DOWN]; omega
  have h1 : BT_VCS_REL_VOL_UP ≠ op := by
    simp only [BT_VCS_REL_VOL_UP]; omega
  have h2 : BT_VCS_UNMUTE_REL_VOL_DOWN ≠ op := by
    simp only [BT_VCS_UNMUTE_REL_VOL_DOWN]; omega
  have h3 : BT_VCS_UNMUTE_REL_VOL_UP ≠ op := by
    simp only [BT_VCS_UNMUTE_REL_VOL_UP]; omega
  have h4 : BT_VCS_SET_ABSOLUTE_VOL ≠ op := by
    simp only [BT_VCS_SET_ABSOLUTE_VOL]; omega
  have h5 : BT_VCS_UNMUTE ≠ op := by
    simp only [BT_VCS_UNMUTE]; omega
  have h6 : BT_VCS_MUTE ≠ op := by
    simp only [BT_VCS_MUTE]; omega
  simp [find_vcs_handler, vcp_handlers, h0, h1, h2, h3, h4, h5, h6]

/-- No VOCS table entry matches an opcode other than 0x01. -/
lemma find_vocs_handler_none (op : Nat) (h : op ≠ BT_VOCS_SET_VOL_OFFSET) :
    find_vocs_handler vocp_handlers op = none := by
  have h0 : BT_VOCS_SET_VOL_OFFSET ≠ op := fun he => h he.symm
  simp [find_vocs_handler, vocp_handlers, h0]

/-- C8: a first byte matching no opcode of the service's dispatch
table (any byte other than 0x00-0x06 for VCS, any byte other than
0x01 for VOCS) yields OpcodeNotSupported with the state unmodified
and no notification. -/
theorem c8_unknown_opcode (st : vol_state) (ost : vol_offset_state)
    (opv opo : Nat) (rest : List Nat)
    (hv : 6 < opv) (ho : opo ≠ BT_VOCS_SET_VOL_OFFSET) :
    vcs_cp_write st 0 (opv :: rest) =
      ⟨BT_ATT_ERROR_OPCODE_NOT_SUPPORTED, st, false⟩ ∧
    vocs_cp_write ost 0 (opo :: rest) =
      ⟨BT_ATT_ERROR_OPCODE_NOT_SUPPORTED, ost, false⟩ := by
  constructor
  · simp [vcs_cp_write, find_vcs_handler_none opv hv]
  · simp [vocs_cp_write, find_vocs_handler_none opo ho]

/-- Witness for C8: opcode 0x07 on VCS, opcode 0x02 on VOCS. -/
theorem c8_witness :
    vcs_cp_write ⟨10, 0, 5⟩ 0 [7, 5] =
      ⟨BT_ATT_ERROR_OPCODE_NOT_SUPPORTED, ⟨10, 0, 5⟩, false⟩ ∧
    vocs_cp_write ⟨0, 3⟩ 0 [2, 3, 5, 0] =
      ⟨BT_ATT_ERROR_OPCODE_NOT_SUPPORTED, ⟨0, 3⟩, false⟩ := by
  have h := c8_unknown_opcode ⟨10, 0, 5⟩ ⟨0, 3⟩ 7 2 [5] (by decide) (by decide)
  refine ⟨h.1, ?_⟩
  have h2 := (c8_unknown_opcode ⟨10, 0, 5⟩ ⟨0, 3⟩ 7 2 [3, 5, 0] (by decide)
      (by decide)).2
  exact h2

/-- One accepted VCS operation keeps the stored setting a byte. -/
lemma apply_vol_op_vol_set_le (st : vol_state) (o : vol_op) :
    (apply_vol_op st o).vol_set ≤ 255 := by
  cases o <;>
    simp [apply_vol_op, vcs_rel_vol_down, vcs_rel_vol_up,
          vcs_unmute_rel_vol_down, vcs_unmute_rel_vol_up,
          vcs_set_absolute_vol] <;>
    omega

/-- A sequence of accepted VCS operations keeps the stored setting a
byte. -/
lemma apply_vol_ops_vol_set_le (ops : List vol_op) (st : vol_state)
    (h : st.vol_set ≤ 255) : (apply_vol_ops st ops).vol_set ≤ 255 := by
  induction ops generalizing st with
  | nil => exact h
  | cons o os ih => exact ih (apply_vol_op st o) (apply_vol_op_vol_set_le st o)

/-- C6: after any sequence of accepted Up/Down (plain or Unmute) and
Set Absolute Volume operations from setting 0, the setting stays in
[0,255]; a Down (either variant) at setting 0 leaves it 0 and an Up
(either variant) at setting 255 leaves it 255, the counter still
incrementing. -/
theorem c6_setting_bounded (ops : List vol_op) (stA stB : vol_state)
    (h0 : stA.vol_set = 0) (h255 : stB.vol_set = 255) :
    (apply_vol_ops init_vol_state ops).vol_set ≤ 255 ∧
    ((vcs_rel_vol_down stA [stA.counter]).st =
       ⟨0, stA.mute, (stA.counter + 1) % 256⟩ ∧
     (vcs_unmute_rel_vol_down stA [stA.counter]).st =
       ⟨0, 0, (stA.counter + 1) % 256⟩) ∧
    ((vcs_rel_vol_up stB [stB.counter]).st =
       ⟨255, stB.mute, (stB.counter + 1) % 256⟩ ∧
     (vcs_unmute_rel_vol_up stB [stB.counter]).st =
       ⟨255, 0, (stB.counter + 1) % 256⟩) := by
  refine ⟨apply_vol_ops_vol_set_le ops init_vol_state (by simp [init_vol_state]),
          ⟨?_, ?_⟩, ⟨?_, ?_⟩⟩ <;>
    simp [vcs_rel_vol_down, vcs_rel_vol_up, vcs_unmute_rel_vol_down,
          vcs_unmute_rel_vol_up, counter_incr, VCP_STEP_SIZE, h0, h255]

/-- Witness for C6: the sequence Up, Up, Set 200, Down from the
initial state stays in range; Down at 0 stays 0; Up at 255 stays 255
with counter 7 → 8. -/
theorem c6_witness :
    (apply_vol_ops init_vol_state
      [vol_op.up, vol_op.up, vol_op.set_abs 200, vol_op.down]).vol_set ≤ 255 ∧
    (vcs_rel_vol_down ⟨0, 0, 7⟩ [7]).st = ⟨0, 0, 8⟩ ∧
    (vcs_rel_vol_up ⟨255, 0, 7⟩ [7]).st = ⟨255, 0, 8⟩ := by
  have h := c6_setting_bounded
      [vol_op.up, vol_op.up, vol_op.set_abs 200, vol_op.down]
      ⟨0, 0, 7⟩ ⟨255, 0, 7⟩ rfl rfl
  exact ⟨h.1, by simpa using h.2.1.1, by simpa using h.2.2.1⟩

/-- C10: bt_vcp_detach on a session that is not in the active session
queue returns at once: the queue and the session are unchanged and no
registered detached callback is invoked. -/
theorem c10_detach_absent_is_noop (sessions : List Nat) (vcp : bt_vcp)
    (vcp_cbs : List Nat) (h : vcp.id ∉ sessions) :
    bt_vcp_detach sessions vcp vcp_cbs = (sessions, vcp, []) := by
  simp [bt_vcp_detach, h]

/-- Witness for C10: a first detach removes session 5 and fires the
callbacks; the second detach, applied to the resulting queue and
session, changes nothing and fires none. -/
theorem c10_witness :
    bt_vcp_detach [5] ⟨5, some 9⟩ [1, 2] = ([], ⟨5, none⟩, [1, 2]) ∧
    bt_vcp_detach [] ⟨5, none⟩ [1, 2] = ([], ⟨5, none⟩, []) := by
  refine ⟨by decide, ?_⟩
  exact c10_detach_absent_is_noop [] ⟨5, none⟩ [1, 2] (by decide)
